import Mathlib

/-!
Shallow embedding of `src/can_bridge.cpp` (CAN bridge for Rexroth RCU4 / Owasys OWA5x).

Machine integers are modelled as `Nat`/`Int` with explicit `% 2^w` where the C code
truncates (`uint8_t` array elements, the `uint16_t` casts in the decoders).  The
`float` multiplication `rawSpeed * 0.125` is modelled exactly in `ℚ`: every 16-bit
integer times 2⁻³ is exactly representable in IEEE binary32, so the rational value
coincides with the float the program computes.  I/O results (read, select) are
explicit inputs; console output is modelled as a list of events.
-/

/-- Extended-frame mask applied before identifier matching (line 173/180/183). -/
def CAN_EFF_MASK : Nat := 0x1FFFFFFF

/-- CAN ID for keypad messages (line 25). -/
def CAN_ID_KEYPAD : Nat := 0x18FF0280

/-- CAN ID for J1939 TSC1 Torque/Speed Control (line 28). -/
def CAN_ID_TSC1 : Nat := 0x0C000003

/-- The file-scope button state (`buttonStates` / `buttonChanged`, lines 31-32). -/
structure ButtonBank where
  buttonStates : Fin 8 → Bool
  buttonChanged : Fin 8 → Bool

/-- Both arrays are zero-initialised at process start (lines 31-32). -/
def initialBank : ButtonBank := ⟨fun _ => false, fun _ => false⟩

/-- Little-endian 16-bit load `(uint16_t)((hi << 8) | lo)` of two `uint8_t` bytes.
The `% 256` records that the C array elements are `uint8_t`; the `% 65536` records
the `uint16_t` conversion of the `int`-typed expression. -/
def le16 (lo hi : Nat) : Nat := (((hi % 256) <<< 8) ||| (lo % 256)) % 65536

/-- `decodeKeypadButtons` (lines 42-65): `buttonData = (data[1] << 8) | data[0]`;
for each `i < 8`, `buttonBits = (buttonData >> (i*2)) & 0x03`, the new state is
`buttonBits == 0x01`, and the change flag compares against the previous state.
Each loop iteration touches only index `i`, so the loop is this pointwise map. -/
def decodeKeypadButtons (data : Nat → Nat) (bank : ButtonBank) : ButtonBank :=
  { buttonStates := fun i => (le16 (data 0) (data 1) >>> (i.val * 2)) &&& 0x03 == 0x01
    buttonChanged := fun i =>
      ((le16 (data 0) (data 1) >>> (i.val * 2)) &&& 0x03 == 0x01) != bank.buttonStates i }

/-- The four fields printed by `decodeTSC1` (line 83-84).  `requestedSpeed` is the
binary32 value `rawSpeed * 0.125f`, represented exactly as a rational. -/
structure TSC1Report where
  overrideCtrl : Nat
  requestedSpeed : ℚ
  requestedTorque : Int
  priority : Nat
deriving DecidableEq

/-- `decodeTSC1` (lines 68-85): byte 0 as-is; bytes 1-2 little-endian times 0.125;
byte 3 minus 125 (the `uint8_t - int` promotion yields a value in [-125,130], which
the `int16_t` stores without wrap); low 2 bits of byte 4. -/
def decodeTSC1 (data : Nat → Nat) : TSC1Report :=
  let overrideCtrl := data 0 % 256
  let rawSpeed := le16 (data 1) (data 2)
  let requestedSpeed : ℚ := (rawSpeed : ℚ) * (1 / 8)
  let rawTorque := data 3 % 256
  let requestedTorque : Int := (rawTorque : Int) - 125
  let priority := (data 4 % 256) &&& 0x03
  ⟨overrideCtrl, requestedSpeed, requestedTorque, priority⟩

/-- The payload byte indices `decodeTSC1` reads: `data[0]` .. `data[4]`. -/
def tsc1ReadIndices : List Nat := [0, 1, 2, 3, 4]

/-- The TSC1 sample payload from the specification: `[0x10, 0x40, 0x01, 0x7D, 0x02]`. -/
def tsc1SampleData : Nat → Nat := fun i => List.getD [0x10, 0x40, 0x01, 0x7D, 0x02] i 0

/-- `struct can_frame` as the program uses it: 32-bit id field, DLC, 8 `uint8_t`
data bytes (reads apply `% 256`). -/
structure CanFrame where
  can_id : Nat
  can_dlc : Nat
  data : Nat → Nat

/-- Outcome of the `read()` call in `read_and_print_frame` (lines 159-170):
negative return with `EAGAIN`/`EWOULDBLOCK` or another errno, a short read of
fewer bytes than one `struct can_frame`, or a full frame. -/
inductive ReadResult where
  | readError (wouldBlock : Bool)
  | incomplete (nbytes : Nat)
  | ok (frame : CanFrame)

/-- True on the three failure outcomes of `read()` (lines 160-170). -/
def ReadResult.isFailure : ReadResult → Bool
  | .ok _ => false
  | _ => true

/-- One line of console output, or one frame handed to the bus. -/
inductive Event where
  | rxLine (src : String) (maskedId dlc : Nat) (bytes : List Nat)
  | keypadLine (bank : ButtonBank)
  | tscLine (report : TSC1Report)
  | errorLine (msg : String)
  | transmit (dest : String) (id dlc : Nat) (bytes : List Nat)

def isTransmitEvent : Event → Bool
  | .transmit _ _ _ _ => true
  | _ => false

def isTscEvent : Event → Bool
  | .tscLine _ => true
  | _ => false

def isKeypadEvent : Event → Bool
  | .keypadLine _ => true
  | _ => false

/-- The data bytes printed for a frame: `data[0] .. data[dlc-1]` (lines 174-176). -/
def frameBytes (f : CanFrame) : List Nat :=
  (List.range f.can_dlc).map (fun i => f.data i % 256)

/-- `read_and_print_frame` (lines 154-190).  On read failure return -1 (with an
error line unless the errno was `EAGAIN`/`EWOULDBLOCK`); on a short read report and
return -1; otherwise print the RX line, then run the keypad decoder when the masked
id is `CAN_ID_KEYPAD` and `can_dlc >= 2`, else the TSC1 decoder when the masked id
is `CAN_ID_TSC1` and `can_dlc >= 4`, and return 0. -/
def read_and_print_frame (rr : ReadResult) (src : String) (bank : ButtonBank) :
    Int × ButtonBank × List Event :=
  match rr with
  | .readError wouldBlock =>
      (-1, bank, if wouldBlock then [] else [Event.errorLine "Error reading from CAN"])
  | .incomplete _ =>
      (-1, bank, [Event.errorLine "Incomplete CAN frame received"])
  | .ok f =>
      let maskedId := f.can_id &&& CAN_EFF_MASK
      let rx := Event.rxLine src maskedId f.can_dlc (frameBytes f)
      if maskedId = CAN_ID_KEYPAD ∧ 2 ≤ f.can_dlc then
        let bank2 := decodeKeypadButtons f.data bank
        (0, bank2, [rx, Event.keypadLine bank2])
      else if maskedId = CAN_ID_TSC1 ∧ 4 ≤ f.can_dlc then
        (0, bank, [rx, Event.tscLine (decodeTSC1 f.data)])
      else
        (0, bank, [rx])

/-- A routing-policy entry: source interface and optional forwarding destination. -/
structure RoutingEntry where
  source : String
  dest : Option String
deriving DecidableEq

/-- The routing the `main` loop implements (lines 265-277): each of the three
interfaces is serviced by `read_and_print_frame` only; no frame is ever
transmitted to another interface ("Monitoring CAN messages (no forwarding)",
line 230), so no entry names a destination. -/
def routingTable : List RoutingEntry :=
  [⟨"canfd1", none⟩, ⟨"canfd2", none⟩, ⟨"canfd3", none⟩]

/-- Transmit calls contained in an event list. -/
def transmitsOf (evs : List Event) : List Event := evs.filter isTransmitEvent

/-- Modelled from the spec (claim side, for comparison with the code): the transmit
calls a RoutingEntry prescribes for a received frame — exactly one call on the
destination handle with byte-identical identifier, length and payload when the
entry names a destination, none otherwise. -/
def specTransmits (e : RoutingEntry) (rr : ReadResult) : List Event :=
  match e.dest, rr with
  | some d, .ok f => [Event.transmit d f.can_id f.can_dlc (frameBytes f)]
  | _, _ => []

/-- Readiness reported by `select` for the three sockets, and the outcome of the
`read()` each ready socket would deliver (lines 267-277). -/
structure Wakeup where
  ready1 : Bool
  ready2 : Bool
  ready3 : Bool
  read1 : ReadResult
  read2 : ReadResult
  read3 : ReadResult

/-- Outcome of one `select` call (lines 250-263): an error (distinguishing
`EINTR`), a timeout, or readiness of some sockets. -/
inductive SelectOutcome where
  | selError (isEINTR : Bool)
  | selTimeout
  | selReady (w : Wakeup)

/-- One `FD_ISSET` check plus the conditional `read_and_print_frame` call; the
return value of `read_and_print_frame` is discarded by `main`. -/
def serviceHandle (ready : Bool) (rr : ReadResult) (src : String)
    (bank : ButtonBank) : ButtonBank × List Event :=
  if ready then
    let r := read_and_print_frame rr src bank
    (r.2.1, r.2.2)
  else (bank, [])

/-- Servicing of one wakeup: the three sockets checked in order (lines 267-277). -/
def serviceWakeup (w : Wakeup) (bank : ButtonBank) : ButtonBank × List Event :=
  let s1 := serviceHandle w.ready1 w.read1 "canfd1" bank
  let s2 := serviceHandle w.ready2 w.read2 "canfd2" s1.1
  let s3 := serviceHandle w.ready3 w.read3 "canfd3" s2.1
  (s3.1, s1.2 ++ s2.2 ++ s3.2)

/-- How the `while (running)` loop ended: the flag was observed clear (shutdown
signal), `select` failed with a non-EINTR error (the `break` on line 257), or the
modelled input trace ran out with the flag still set (model artifact). -/
inductive LoopExit where
  | shutdown
  | selectFailure
  | fuelExhausted
deriving DecidableEq

/-- The main loop (lines 233-278) over a trace of iteration inputs: each element
is the value of `running` observed at the `while` check, paired with the `select`
outcome the iteration would see.  `EINTR` and timeout `continue`; a non-EINTR
`select` error prints and `break`s; a wakeup services every ready socket. -/
def mainLoop : List (Bool × SelectOutcome) → ButtonBank → ButtonBank × LoopExit × List Event
  | [], bank => (bank, LoopExit.fuelExhausted, [])
  | (flag, out) :: rest, bank =>
    if flag then
      match out with
      | .selError true => mainLoop rest bank
      | .selError false => (bank, LoopExit.selectFailure, [Event.errorLine "select error"])
      | .selTimeout => mainLoop rest bank
      | .selReady w =>
          let s := serviceWakeup w bank
          let r := mainLoop rest s.1
          (r.1, r.2.1, s.2 ++ r.2.2)
    else (bank, LoopExit.shutdown, [])

/-- Success or failure of the three shell steps inside `restart_can_interface`
(lines 88-115). -/
structure ConfigSteps where
  downOk : Bool
  bitrateOk : Bool
  upOk : Bool

/-- `restart_can_interface` (lines 88-115): the "down" step's result is discarded,
a bitrate-configuration failure only warns, and only a failure of the "up" step
makes the call return -1. -/
def restart_can_interface (steps : ConfigSteps) : Int :=
  if steps.upOk then 0 else -1

/-- Observable outcome of a run of `main`: the process exit code, which of the
three socket handles were closed (in order), and how the loop ended (`none` when
the loop was never entered). -/
structure ProgramRun where
  exitCode : Int
  closes : List (Fin 3)
  loopExit : Option LoopExit
deriving DecidableEq

/-- `main` (lines 192-288) given the configuration results, the `setup_can_socket`
return values (a file descriptor, or -1 on failure), and the loop's input trace.
The three `restart_can_interface` calls short-circuit; the three sockets are all
created before the combined check on line 224; on success the loop runs and the
three sockets are closed once each before `return 0` (lines 282-287). -/
def runMain (cfg1 cfg2 cfg3 : ConfigSteps) (sock1 sock2 sock3 : Int)
    (inputs : List (Bool × SelectOutcome)) : ProgramRun :=
  if restart_can_interface cfg1 < 0 then ⟨1, [], none⟩
  else if restart_can_interface cfg2 < 0 then ⟨1, [], none⟩
  else if restart_can_interface cfg3 < 0 then ⟨1, [], none⟩
  else if sock1 < 0 ∨ sock2 < 0 ∨ sock3 < 0 then ⟨1, [], none⟩
  else
    let r := mainLoop inputs initialBank
    ⟨0, [0, 1, 2], some r.2.1⟩

/-! ### Arithmetic helper lemmas -/

/-- A little-endian 16-bit load of two bytes equals `hi * 256 + lo` (byte-reduced). -/
theorem le16_eq (lo hi : Nat) : le16 lo hi = (hi % 256) * 256 + (lo % 256) := by
  have hlo : lo % 256 < 2 ^ 8 := by
    have h2 : (2 : ℕ) ^ 8 = 256 := by norm_num
    omega
  have h2 : (2 : ℕ) ^ 8 = 256 := by norm_num
  have key := Nat.mul_add_lt_is_or hlo (hi % 256)
  unfold le16
  rw [Nat.shiftLeft_eq, Nat.mul_comm (hi % 256) (2 ^ 8), ← key,
    Nat.mod_eq_of_lt (by omega)]

/-- On genuine bytes the `% 256` reductions disappear. -/
theorem le16_eq_of_lt (lo hi : Nat) (hlo : lo < 256) (hhi : hi < 256) :
    le16 lo hi = hi * 256 + lo := by
  rw [le16_eq, Nat.mod_eq_of_lt hlo, Nat.mod_eq_of_lt hhi]

/-! ### Claims -/

/-- Claim C3: for every 16-bit keypad payload (bytes 0-1 of a keypad frame,
little-endian), the decoded pressed state of button `i` (for each `i` in 0..7)
equals the predicate `((payload >> (2*i)) & 0b11) == 0b01`. -/
theorem c3_keypad_button_states (d : Nat → Nat) (bank : ButtonBank) (i : Fin 8)
    (h0 : d 0 < 256) (h1 : d 1 < 256) :
    (decodeKeypadButtons d bank).buttonStates i =
      (((d 1 * 256 + d 0) >>> (2 * i.val)) &&& 0x03 == 0x01) := by
  show ((le16 (d 0) (d 1) >>> (i.val * 2)) &&& 0x03 == 0x01)
      = (((d 1 * 256 + d 0) >>> (2 * i.val)) &&& 0x03 == 0x01)
  rw [le16_eq_of_lt _ _ h0 h1, Nat.mul_comm 2 i.val]

/-- Witness for C3 at payload bytes `0x55, 0x55` and button 0. -/
theorem c3_keypad_button_states_witness :
    (decodeKeypadButtons (fun _ => 0x55) initialBank).buttonStates 0 = true := by
  have h := c3_keypad_button_states (fun _ => 0x55) initialBank 0 (by norm_num) (by norm_num)
  rw [h]
  decide

/-- Claim C4: after a keypad decode, button `i`'s change flag is true iff the newly
computed pressed state differs from the state stored by the immediately preceding
keypad decode; decoding the same payload twice in succession, from any starting
ButtonBank, yields change flag false for every button on the second decode. -/
theorem c4_button_change_flags (d : Nat → Nat) (bank : ButtonBank) (i : Fin 8) :
    ((decodeKeypadButtons d bank).buttonChanged i =
        ((decodeKeypadButtons d bank).buttonStates i != bank.buttonStates i))
    ∧ (decodeKeypadButtons d (decodeKeypadButtons d bank)).buttonChanged i = false := by
  constructor
  · rfl
  · show (((le16 (d 0) (d 1) >>> (i.val * 2)) &&& 0x03 == 0x01)
        != ((le16 (d 0) (d 1) >>> (i.val * 2)) &&& 0x03 == 0x01)) = false
    exact bne_self_eq_false _

/-- Claim C5: the TSC1 decode is a pure function of payload bytes 0-4: the
control-mode byte is byte 0 as-is, the requested speed is the little-endian
16-bit value of bytes 1-2 times 0.125 RPM, the torque is byte 3 minus 125 as a
signed percentage, the priority is the lower 2 bits of byte 4; and the sample
input decodes to speed 40.0 RPM, torque 0, priority 2, control mode 0x10. -/
theorem c5_tsc1_pure_decode (d : Nat → Nat) (h0 : d 0 < 256) (h1 : d 1 < 256)
    (h2 : d 2 < 256) (h3 : d 3 < 256) (h4 : d 4 < 256) :
    ((decodeTSC1 d).overrideCtrl = d 0
      ∧ (decodeTSC1 d).requestedSpeed = ((d 2 * 256 + d 1 : ℕ) : ℚ) * (1 / 8)
      ∧ (decodeTSC1 d).requestedTorque = (d 3 : ℤ) - 125
      ∧ (decodeTSC1 d).priority = d 4 &&& 0x03)
    ∧ decodeTSC1 tsc1SampleData = ⟨0x10, 40, 0, 2⟩ := by
  refine ⟨⟨?_, ?_, ?_, ?_⟩, ?_⟩
  · exact Nat.mod_eq_of_lt h0
  · show ((le16 (d 1) (d 2) : ℕ) : ℚ) * (1 / 8) = _
    rw [le16_eq_of_lt _ _ h1 h2]
  · show ((d 3 % 256 : ℕ) : ℤ) - 125 = _
    rw [Nat.mod_eq_of_lt h3]
  · show (d 4 % 256) &&& 0x03 = d 4 &&& 0x03
    rw [Nat.mod_eq_of_lt h4]
  · show (⟨0x10 % 256, ((le16 0x40 0x01 : ℕ) : ℚ) * (1 / 8),
        ((0x7D % 256 : ℕ) : ℤ) - 125, (0x02 % 256) &&& 0x03⟩ : TSC1Report)
      = ⟨0x10, 40, 0, 2⟩
    have hs : le16 0x40 0x01 = 320 := by
      rw [le16_eq_of_lt _ _ (by norm_num) (by norm_num)]
    rw [hs]
    simp only [TSC1Report.mk.injEq]
    refine ⟨by norm_num, by norm_num, by norm_num, by decide⟩

/-- Witness for C5 at the specification's sample payload. -/
theorem c5_tsc1_pure_decode_witness :
    decodeTSC1 tsc1SampleData = ⟨0x10, 40, 0, 2⟩ :=
  (c5_tsc1_pure_decode tsc1SampleData (by decide) (by decide) (by decide)
    (by decide) (by decide)).2

/-- The service path of a received frame performs no transmit call at all
(`main` only reads and prints; line 230 announces "no forwarding"). -/
theorem transmitsOf_read_and_print_frame (rr : ReadResult) (src : String)
    (bank : ButtonBank) :
    transmitsOf (read_and_print_frame rr src bank).2.2 = [] := by
  cases rr with
  | readError wb => cases wb <;> simp [read_and_print_frame, transmitsOf, isTransmitEvent]
  | incomplete n => simp [read_and_print_frame, transmitsOf, isTransmitEvent]
  | ok f =>
      simp only [read_and_print_frame]
      split_ifs <;> simp [transmitsOf, isTransmitEvent]

/-- Claim C1: for every frame received on an interface whose RoutingEntry names a
forwarding destination, the program makes exactly one transmit call on the
destination handle with byte-identical identifier, data length and payload.  The
transmit calls made while servicing a receive are exactly those the interface's
routing entry prescribes; in this program no entry names a destination, so both
sides are empty and the claim holds over an empty set of forwarding entries. -/
theorem c1_forwarding_refinement (e : RoutingEntry) (he : e ∈ routingTable)
    (rr : ReadResult) (bank : ButtonBank) :
    transmitsOf (read_and_print_frame rr e.source bank).2.2 = specTransmits e rr := by
  have hd : e.dest = none := by
    simp only [routingTable, List.mem_cons, List.not_mem_nil, or_false] at he
    rcases he with h | h | h <;> subst h <;> rfl
  rw [transmitsOf_read_and_print_frame]
  cases rr <;> simp [specTransmits, hd]

/-- Witness for C1 at the first routing entry and a concrete frame. -/
theorem c1_forwarding_refinement_witness :
    transmitsOf (read_and_print_frame (ReadResult.ok ⟨0x123, 8, fun _ => 0⟩)
        "canfd1" initialBank).2.2
      = specTransmits ⟨"canfd1", none⟩ (ReadResult.ok ⟨0x123, 8, fun _ => 0⟩) :=
  c1_forwarding_refinement ⟨"canfd1", none⟩ (by simp [routingTable])
    (ReadResult.ok ⟨0x123, 8, fun _ => 0⟩) initialBank

/-- Claim C2 counterexample: a frame with extended-id field 0x8C000003 (masked id
0x0C000003) and data length 4 does invoke the TSC1 decoder although its length is
below 5, and the decode result depends on payload byte index 4, which lies outside
the declared data length 4. -/
theorem c2_tsc1_guard_counterexample :
    ((((read_and_print_frame (ReadResult.ok ⟨0x8C000003, 4, fun _ => 0⟩) "canfd2"
        initialBank).2.2).any isTscEvent) = true)
    ∧ ((4 : Nat) < 5)
    ∧ decodeTSC1 (fun _ => 0) ≠ decodeTSC1 (fun i => if i = 4 then 2 else 0) := by
  refine ⟨rfl, by norm_num, ?_⟩
  intro h
  have hp : (0 : ℕ) = 2 := by
    have h0 : (decodeTSC1 fun _ => 0).priority = 0 := rfl
    have h2 : (decodeTSC1 fun i => if i = 4 then 2 else 0).priority = 2 := rfl
    rw [← h0, ← h2, h]
  exact absurd hp (by norm_num)

/-- Claim C2 (amended): the TSC1 decoder is invoked exactly on frames whose masked
identifier equals 0x0C000003 and whose data length is at least 4 (not 5); the
decode reads only payload byte indices 0 through 4, and those all lie within the
frame's declared data length precisely when the length is at least 5 — so a frame
with data length exactly 4 is decoded while byte index 4 lies outside its declared
length. -/
theorem c2_tsc1_guard_amended (f : CanFrame) (src : String) (bank : ButtonBank)
    (d : Nat → Nat) :
    ((((read_and_print_frame (ReadResult.ok f) src bank).2.2).any isTscEvent = true)
        ↔ (f.can_id &&& CAN_EFF_MASK = CAN_ID_TSC1 ∧ 4 ≤ f.can_dlc))
    ∧ decodeTSC1 d = decodeTSC1 (fun i => if i < 5 then d i else 0)
    ∧ ((tsc1ReadIndices.all fun j => decide (j < f.can_dlc)) = true ↔ 5 ≤ f.can_dlc) := by
  refine ⟨?_, ?_, ?_⟩
  · simp only [read_and_print_frame]
    split_ifs with h1 h2
    · simp only [List.any_cons, List.any_nil, isTscEvent, isKeypadEvent, Bool.or_false,
        Bool.false_or]
      constructor
      · intro h
        exact absurd h (by simp [isTscEvent, isKeypadEvent])
      · rintro ⟨ht, -⟩
        have hc := h1.1.symm.trans ht
        simp [CAN_ID_KEYPAD, CAN_ID_TSC1] at hc
    · simp only [List.any_cons, List.any_nil, isTscEvent]
      simp [h2]
    · simp only [List.any_cons, List.any_nil, isTscEvent]
      simp [h2]
  · rfl
  · simp [tsc1ReadIndices]
    omega

/-- Witness for C2 (amended) at a well-formed 5-byte TSC1 frame. -/
theorem c2_tsc1_guard_amended_witness :
    ((((read_and_print_frame (ReadResult.ok ⟨0x0C000003, 5, tsc1SampleData⟩) "canfd2"
        initialBank).2.2).any isTscEvent = true)
        ↔ ((0x0C000003 : Nat) &&& CAN_EFF_MASK = CAN_ID_TSC1 ∧ 4 ≤ 5))
    ∧ decodeTSC1 tsc1SampleData = decodeTSC1 (fun i => if i < 5 then tsc1SampleData i else 0)
    ∧ ((tsc1ReadIndices.all fun j => decide (j < 5)) = true ↔ 5 ≤ 5) :=
  c2_tsc1_guard_amended ⟨0x0C000003, 5, tsc1SampleData⟩ "canfd2" initialBank tsc1SampleData

/-- Claim C6 counterexample: the frame with masked identifier 0x0C000003 and data
length 4 has fewer data bytes than the TSC1 decoder's 5-byte minimum, yet a decoder
is invoked on it. -/
theorem c6_unmatched_frames_counterexample :
    ((((read_and_print_frame (ReadResult.ok ⟨0x0C000003, 4, fun i => i⟩) "canfd3"
        initialBank).2.2).any isTscEvent) = true)
    ∧ (⟨0x0C000003, 4, fun i => i⟩ : CanFrame).can_dlc < 5 :=
  ⟨rfl, by norm_num⟩

/-- Claim C6 (amended): for every received frame that fails both in-code guards —
masked identifier not 0x18FF0280 with length at least 2, and masked identifier not
0x0C000003 with length at least 4 — no decoder is invoked, the ButtonBank is
unchanged, and the raw frame is still reported (the output is exactly the RX
line). -/
theorem c6_unmatched_frames_amended (f : CanFrame) (src : String) (bank : ButtonBank)
    (hk : ¬(f.can_id &&& CAN_EFF_MASK = CAN_ID_KEYPAD ∧ 2 ≤ f.can_dlc))
    (ht : ¬(f.can_id &&& CAN_EFF_MASK = CAN_ID_TSC1 ∧ 4 ≤ f.can_dlc)) :
    read_and_print_frame (ReadResult.ok f) src bank =
      (0, bank, [Event.rxLine src (f.can_id &&& CAN_EFF_MASK) f.can_dlc (frameBytes f)]) := by
  simp only [read_and_print_frame]
  rw [if_neg hk, if_neg ht]

/-- Witness for C6 (amended) at a frame matching neither identifier. -/
theorem c6_unmatched_frames_amended_witness :
    read_and_print_frame (ReadResult.ok ⟨0x123, 8, fun _ => 0xFF⟩) "canfd1" initialBank =
      (0, initialBank, [Event.rxLine "canfd1" ((0x123 : Nat) &&& CAN_EFF_MASK) 8
        (frameBytes ⟨0x123, 8, fun _ => 0xFF⟩)]) :=
  c6_unmatched_frames_amended ⟨0x123, 8, fun _ => 0xFF⟩ "canfd1" initialBank
    (by decide) (by decide)

/-- Claim C10: if reading a frame fails (no data available, an I/O error, or a
short read), `read_and_print_frame` returns -1 before any decoding: the ButtonBank
is exactly as it was before the call and no decoded report is produced. -/
theorem c10_read_failure_preserves_state (rr : ReadResult) (src : String)
    (bank : ButtonBank) (h : rr.isFailure = true) :
    (read_and_print_frame rr src bank).1 = -1
    ∧ (read_and_print_frame rr src bank).2.1 = bank
    ∧ ((read_and_print_frame rr src bank).2.2).any isKeypadEvent = false
    ∧ ((read_and_print_frame rr src bank).2.2).any isTscEvent = false := by
  cases rr with
  | readError wb => cases wb <;> simp [read_and_print_frame, isKeypadEvent, isTscEvent]
  | incomplete n => simp [read_and_print_frame, isKeypadEvent, isTscEvent]
  | ok f => simp [ReadResult.isFailure] at h

/-- Witness for C10 at a would-block read failure. -/
theorem c10_read_failure_preserves_state_witness :
    (read_and_print_frame (ReadResult.readError true) "canfd1" initialBank).1 = -1
    ∧ (read_and_print_frame (ReadResult.readError true) "canfd1" initialBank).2.1
        = initialBank
    ∧ ((read_and_print_frame (ReadResult.readError true) "canfd1"
        initialBank).2.2).any isKeypadEvent = false
    ∧ ((read_and_print_frame (ReadResult.readError true) "canfd1"
        initialBank).2.2).any isTscEvent = false :=
  c10_read_failure_preserves_state (ReadResult.readError true) "canfd1" initialBank rfl

/-- Claim C7 counterexample: with the shutdown flag still set (true at every
check), a single non-EINTR readiness-wait failure makes the loop terminate — and
the process run ends — without any shutdown signal. -/
theorem c7_runtime_error_counterexample :
    (mainLoop [(true, SelectOutcome.selError false)] initialBank).2.1
        = LoopExit.selectFailure
    ∧ (runMain ⟨true, true, true⟩ ⟨true, true, true⟩ ⟨true, true, true⟩ 3 4 5
        [(true, SelectOutcome.selError false)]).loopExit
        = some LoopExit.selectFailure :=
  ⟨rfl, rfl⟩

/-- Claim C7 (amended): after entering the main loop, receive errors and
incomplete frames never terminate the process — a wakeup is always fully serviced
and the loop continues, whatever the read results were — and EINTR-interrupted
waits and timeouts just retry; but a readiness-wait error other than EINTR breaks
the loop (the process then closes its handles and exits), and the shutdown exit
happens exactly when the flag is observed clear. -/
theorem c7_runtime_errors_amended (w : Wakeup) (rest : List (Bool × SelectOutcome))
    (bank : ButtonBank) :
    (mainLoop ((true, SelectOutcome.selReady w) :: rest) bank).2.1
        = (mainLoop rest (serviceWakeup w bank).1).2.1
    ∧ mainLoop ((true, SelectOutcome.selError true) :: rest) bank = mainLoop rest bank
    ∧ mainLoop ((true, SelectOutcome.selTimeout) :: rest) bank = mainLoop rest bank
    ∧ (mainLoop ((true, SelectOutcome.selError false) :: rest) bank).2.1
        = LoopExit.selectFailure
    ∧ (mainLoop ((false, SelectOutcome.selTimeout) :: rest) bank).2.1
        = LoopExit.shutdown :=
  ⟨rfl, rfl, rfl, rfl, rfl⟩

/-- Claim C8: if configuring any of the three interfaces fails or opening/binding
any of the three sockets fails, the process exits with code 1 before entering the
main loop; the Running state (the main loop) is reached exactly when all three
interfaces are configured and all three sockets are bound. -/
theorem c8_startup_failure_aborts (cfg1 cfg2 cfg3 : ConfigSteps)
    (sock1 sock2 sock3 : Int) (inputs : List (Bool × SelectOutcome)) :
    ((runMain cfg1 cfg2 cfg3 sock1 sock2 sock3 inputs).loopExit ≠ none ↔
      (0 ≤ restart_can_interface cfg1 ∧ 0 ≤ restart_can_interface cfg2
        ∧ 0 ≤ restart_can_interface cfg3 ∧ 0 ≤ sock1 ∧ 0 ≤ sock2 ∧ 0 ≤ sock3))
    ∧ (¬(0 ≤ restart_can_interface cfg1 ∧ 0 ≤ restart_can_interface cfg2
        ∧ 0 ≤ restart_can_interface cfg3 ∧ 0 ≤ sock1 ∧ 0 ≤ sock2 ∧ 0 ≤ sock3)
      → runMain cfg1 cfg2 cfg3 sock1 sock2 sock3 inputs = ⟨1, [], none⟩) := by
  unfold runMain
  split_ifs with h1 h2 h3 h4
  · refine ⟨⟨fun h => absurd rfl h, fun h => absurd h1 (by omega)⟩, fun _ => rfl⟩
  · refine ⟨⟨fun h => absurd rfl h, fun h => absurd h2 (by omega)⟩, fun _ => rfl⟩
  · refine ⟨⟨fun h => absurd rfl h, fun h => absurd h3 (by omega)⟩, fun _ => rfl⟩
  · refine ⟨⟨fun h => absurd rfl h, fun h => absurd h4 (by omega)⟩, fun _ => rfl⟩
  · constructor
    · constructor
      · intro h
        exact ⟨by omega, by omega, by omega, by omega, by omega, by omega⟩
      · intro h
        simp
    · intro hn
      exact absurd ⟨by omega, by omega, by omega, by omega, by omega, by omega⟩ hn

/-- Witness for C8: the up-step of the first interface fails, so the process
exits 1 without reaching the loop. -/
theorem c8_startup_failure_aborts_witness :
    runMain ⟨true, true, false⟩ ⟨true, true, true⟩ ⟨true, true, true⟩ 3 4 5 []
      = ⟨1, [], none⟩ :=
  (c8_startup_failure_aborts ⟨true, true, false⟩ ⟨true, true, true⟩ ⟨true, true, true⟩
    3 4 5 []).2 (by decide)

/-- Claim C9: once the shutdown flag is observed clear at the `while` check, the
loop exits immediately — it performs no further readiness wait and ignores the
rest of the input trace, so shutdown is noticed within one timeout interval — and
the run closes each of the three socket handles exactly once and exits with
code 0. -/
theorem c9_shutdown_clean (out : SelectOutcome) (rest : List (Bool × SelectOutcome))
    (bank : ButtonBank) (cfg1 cfg2 cfg3 : ConfigSteps) (sock1 sock2 sock3 : Int)
    (hc1 : restart_can_interface cfg1 = 0) (hc2 : restart_can_interface cfg2 = 0)
    (hc3 : restart_can_interface cfg3 = 0)
    (hs1 : 0 ≤ sock1) (hs2 : 0 ≤ sock2) (hs3 : 0 ≤ sock3) :
    mainLoop ((false, out) :: rest) bank = (bank, LoopExit.shutdown, [])
    ∧ (runMain cfg1 cfg2 cfg3 sock1 sock2 sock3 ((false, out) :: rest)).exitCode = 0
    ∧ (runMain cfg1 cfg2 cfg3 sock1 sock2 sock3 ((false, out) :: rest)).closes = [0, 1, 2]
    ∧ ((runMain cfg1 cfg2 cfg3 sock1 sock2 sock3 ((false, out) :: rest)).closes).count 0 = 1
    ∧ ((runMain cfg1 cfg2 cfg3 sock1 sock2 sock3 ((false, out) :: rest)).closes).count 1 = 1
    ∧ ((runMain cfg1 cfg2 cfg3 sock1 sock2 sock3 ((false, out) :: rest)).closes).count 2 = 1
    ∧ (runMain cfg1 cfg2 cfg3 sock1 sock2 sock3 ((false, out) :: rest)).loopExit
        = some LoopExit.shutdown := by
  have hrun : runMain cfg1 cfg2 cfg3 sock1 sock2 sock3 ((false, out) :: rest)
      = ⟨0, [0, 1, 2], some LoopExit.shutdown⟩ := by
    unfold runMain
    rw [if_neg (by omega), if_neg (by omega), if_neg (by omega), if_neg (by omega)]
    rfl
  refine ⟨rfl, ?_, ?_, ?_, ?_, ?_, ?_⟩ <;> rw [hrun] <;> rfl

/-- Witness for C9 at a trace whose first check already sees the flag clear. -/
theorem c9_shutdown_clean_witness :
    mainLoop [(false, SelectOutcome.selTimeout)] initialBank
        = (initialBank, LoopExit.shutdown, [])
    ∧ (runMain ⟨true, true, true⟩ ⟨true, true, true⟩ ⟨true, true, true⟩ 3 4 5
        [(false, SelectOutcome.selTimeout)]).exitCode = 0
    ∧ (runMain ⟨true, true, true⟩ ⟨true, true, true⟩ ⟨true, true, true⟩ 3 4 5
        [(false, SelectOutcome.selTimeout)]).closes = [0, 1, 2]
    ∧ ((runMain ⟨true, true, true⟩ ⟨true, true, true⟩ ⟨true, true, true⟩ 3 4 5
        [(false, SelectOutcome.selTimeout)]).closes).count 0 = 1
    ∧ ((runMain ⟨true, true, true⟩ ⟨true, true, true⟩ ⟨true, true, true⟩ 3 4 5
        [(false, SelectOutcome.selTimeout)]).closes).count 1 = 1
    ∧ ((runMain ⟨true, true, true⟩ ⟨true, true, true⟩ ⟨true, true, true⟩ 3 4 5
        [(false, SelectOutcome.selTimeout)]).closes).count 2 = 1
    ∧ (runMain ⟨true, true, true⟩ ⟨true, true, true⟩ ⟨true, true, true⟩ 3 4 5
        [(false, SelectOutcome.selTimeout)]).loopExit = some LoopExit.shutdown :=
  c9_shutdown_clean SelectOutcome.selTimeout [] initialBank
    ⟨true, true, true⟩ ⟨true, true, true⟩ ⟨true, true, true⟩ 3 4 5
    rfl rfl rfl (by norm_num) (by norm_num) (by norm_num)
